import Mathlib

/-!
Shallow embedding of `runner/models.py` from the mouse-cloud repository.

The file embeds the Django model layer: record structures for the entities
(`Mouse`, `Box`, `Session`), the paired-coordinate property getters/setters of
`Box`, and the derived display methods of `Session`
(`left_valve_summary`, `right_valve_summary`, `display_left_perf`,
`display_right_perf`, `__str__`), plus the stub property
`Box.mean_water_consumed`.

Modelling conventions:
- nullable database columns become `Option` fields;
- `FloatField` values are idealised as rationals (`ℚ`); the Python `'%0.2f'`
  style formatting is modelled by `Runner.formatFixed`, rounding to nearest
  (the concrete values appearing in the development are far from ties, where
  binary floating point and `ℚ` could disagree);
- a Python value that may dynamically be absent, numeric or a non-numeric
  string is modelled by `Runner.PyVal`;
- Python truthiness of an optional number (`None` and `0.0` are falsy) is
  `Runner.truthy`;
- a setter that can raise (`obj[0]` / `obj[1]` on a too-short sequence)
  returns `Option`.
-/

namespace Runner

/-- A dynamically typed Python value as stored in a float-valued attribute:
absent (`None`), a number, or a non-numeric string. -/
inductive PyVal where
  | none : PyVal
  | num (q : ℚ) : PyVal
  | str (s : String) : PyVal
  deriving DecidableEq

/-- Left-pad a string with zeros to length `k`. -/
def padZeros (k : Nat) (s : String) : String :=
  String.mk (List.replicate (k - s.length) '0') ++ s

/-- `q` scaled by `10 ^ prec` and rounded to the nearest integer (ties up),
that is `⌊q * 10 ^ prec + 1/2⌋`, computed on the numerator/denominator
representation so that it evaluates by kernel reduction. -/
def roundScaled (prec : Nat) (q : ℚ) : Int :=
  Int.fdiv (2 * q.num * ((10 ^ prec : Nat) : Int) + (q.den : Int)) (2 * (q.den : Int))

/-- Multiply a rational by a natural scalar (as in `1000 * mean` or
`100 * perf`), again on the representation. -/
def qscale (n : Nat) (q : ℚ) : ℚ :=
  mkRat ((n : Int) * q.num) q.den

/-- Python `'%0.<prec>f' % q` fixed-point formatting, idealised over `ℚ`:
round `q` to `prec` decimal places and print, with no decimal point when
`prec = 0`. -/
def formatFixed (prec : Nat) (q : ℚ) : String :=
  let scaled : Int := roundScaled prec q
  let sign : String := if scaled < 0 then "-" else ""
  let n : Nat := scaled.natAbs
  if prec = 0 then
    sign ++ toString n
  else
    sign ++ toString (n / 10 ^ prec) ++ "." ++ padZeros prec (toString (n % 10 ^ prec))

/-- Python truthiness of an optional number: `None` and `0.0` are falsy. -/
def truthy : Option ℚ → Bool
  | Option.none => false
  | Option.some q => q != 0

example : formatFixed 2 (mkRat 5 2) = "2.50" := by decide
example : formatFixed 1 (qscale 1000 (mkRat 3 100)) = "30.0" := by decide
example : formatFixed 0 (qscale 100 (mkRat 873 1000)) = "87" := by decide
example : truthy (Option.some 0) = false := by decide
example : truthy (Option.some (mkRat 5 2)) = true := by decide

/-- The `Box` model (`runner/models.py`, class `Box`): hardware info about
individual boxes.  Nullable integer columns are `Option Int`. -/
structure Box where
  name : String
  l_reward_duration : Int
  r_reward_duration : Option Int
  serial_port : String
  video_device : Option String
  video_window_position_x : Option Int
  video_window_position_y : Option Int
  gui_window_position_x : Option Int
  gui_window_position_y : Option Int
  window_position_IR_plot_x : Option Int
  window_position_IR_plot_y : Option Int
  subprocess_window_ypos : Option Int
  video_brightness : Option Int
  video_gain : Option Int
  video_exposure : Option Int
  deriving DecidableEq

/-- Getter of the `video_window_position` property:
`(self.video_window_position_x, self.video_window_position_y)`. -/
def Box.video_window_position (b : Box) : Option Int × Option Int :=
  (b.video_window_position_x, b.video_window_position_y)

/-- Getter of the `gui_window_position` property. -/
def Box.gui_window_position (b : Box) : Option Int × Option Int :=
  (b.gui_window_position_x, b.gui_window_position_y)

/-- Getter of the `window_position_IR_plot` property. -/
def Box.window_position_IR_plot (b : Box) : Option Int × Option Int :=
  (b.window_position_IR_plot_x, b.window_position_IR_plot_y)

/-- Setter of the `video_window_position` property: assigns `obj[0]` and
`obj[1]` to the two backing columns.  In Python, indexing a too-short
sequence raises `IndexError`; this is modelled by returning `Option.none`. -/
def Box.set_video_window_position (b : Box) (obj : List (Option Int)) : Option Box :=
  match obj[0]?, obj[1]? with
  | Option.some x, Option.some y =>
      Option.some { b with video_window_position_x := x, video_window_position_y := y }
  | _, _ => Option.none

/-- Setter of the `gui_window_position` property. -/
def Box.set_gui_window_position (b : Box) (obj : List (Option Int)) : Option Box :=
  match obj[0]?, obj[1]? with
  | Option.some x, Option.some y =>
      Option.some { b with gui_window_position_x := x, gui_window_position_y := y }
  | _, _ => Option.none

/-- Setter of the `window_position_IR_plot` property. -/
def Box.set_window_position_IR_plot (b : Box) (obj : List (Option Int)) : Option Box :=
  match obj[0]?, obj[1]? with
  | Option.some x, Option.some y =>
      Option.some { b with window_position_IR_plot_x := x, window_position_IR_plot_y := y }
  | _, _ => Option.none

/-- The `Session` model (`runner/models.py`, class `Session`).  Foreign keys
are modelled by their ids (`mouse : Int`, required; `board`, `box`
optional), `DateTimeField`s as opaque `Option Int` timestamps, `FloatField`s
as `Option ℚ`, and the two performance columns — whose display methods guard
against dynamically non-numeric content — as `PyVal`. -/
structure Session where
  name : String
  mouse : Int
  logfile : String
  board : Option Int
  box : Option Int
  serial_port : Option String
  autosketch_path : String
  script_path : String
  sandbox : String
  python_param_scheduler_name : Option String
  python_param_stimulus_set : Option String
  irl_param_stimulus_arm : Option String
  date_time_start : Option Int
  date_time_stop : Option Int
  user_data_water_pipe_position_start : Option ℚ
  user_data_water_pipe_position_stop : Option ℚ
  user_data_left_water_consumption : Option ℚ
  user_data_right_water_consumption : Option ℚ
  user_data_left_valve_mean : Option ℚ
  user_data_right_valve_mean : Option ℚ
  user_data_left_perf : PyVal
  user_data_right_perf : PyVal
  user_data_bias_summary : Option String
  user_data_weight : Option ℚ
  deriving DecidableEq

/-- `Session.__str__`: the stored `name` if truthy (non-empty), else the
sentinel `'Unstarted'`. -/
def Session.str (s : Session) : String :=
  if s.name ≠ "" then s.name else "Unstarted"

/-- `Session.left_valve_summary`: start from `''`; if the left water
consumption is truthy append `'%0.2f' % consumption`; if the left valve mean
is truthy append `' @%0.1f μL' % (1000 * mean)`.  (Under the truthiness
guard the stored value is `some q`, so `Option.getD` retrieves exactly the
stored value.) -/
def Session.left_valve_summary (s : Session) : String :=
  let res := ""
  let res := if truthy s.user_data_left_water_consumption then
      res ++ formatFixed 2 (s.user_data_left_water_consumption.getD 0)
    else res
  let res := if truthy s.user_data_left_valve_mean then
      res ++ " @" ++ formatFixed 1 (qscale 1000 (s.user_data_left_valve_mean.getD 0)) ++ " μL"
    else res
  res

/-- `Session.right_valve_summary`, mirror image of the left one. -/
def Session.right_valve_summary (s : Session) : String :=
  let res := ""
  let res := if truthy s.user_data_right_water_consumption then
      res ++ formatFixed 2 (s.user_data_right_water_consumption.getD 0)
    else res
  let res := if truthy s.user_data_right_valve_mean then
      res ++ " @" ++ formatFixed 1 (qscale 1000 (s.user_data_right_valve_mean.getD 0)) ++ " μL"
    else res
  res

/-- `Session.display_left_perf`: `'%.0f' % (100 * value)` under
`try/except`.  When the stored value is `None` or a non-numeric string, the
multiplication or the format raises and the handler returns `'NA'`. -/
def Session.display_left_perf (s : Session) : String :=
  match s.user_data_left_perf with
  | PyVal.num q => formatFixed 0 (qscale 100 q)
  | _ => "NA"

/-- `Session.display_right_perf`, mirror image of the left one. -/
def Session.display_right_perf (s : Session) : String :=
  match s.user_data_right_perf with
  | PyVal.num q => formatFixed 0 (qscale 100 q)
  | _ => "NA"

/-- `Box.mean_water_consumed` (`runner/models.py` lines 84–87): the body is
`self.session_list[0].name`.  No field, property or reverse relation named
`session_list` is defined anywhere in the schema (the Django reverse
accessor for `Session.box` would be `session_set`), so the attribute is
undefined on `Box`; the expression is therefore modelled as a function of an
arbitrary list standing for that undefined attribute.  `[0]` on an empty
sequence raises, modelled by `Option`. -/
def Box.mean_water_consumed (session_list : List Session) : Option String :=
  (session_list[0]?).map Session.name

/-- The `Mouse` model (`runner/models.py`, class `Mouse`).  `timeout`,
`default_board` and `default_box` are nullable; `max_rewards_per_trial`
defaults to `1`; all other columns are required. -/
structure Mouse where
  name : String
  stimulus_set : String
  step_first_rotation : Int
  timeout : Option Int
  scheduler : String
  max_rewards_per_trial : Int
  protocol_name : String
  script_name : String
  default_board : Option String
  default_box : Option String
  deriving DecidableEq

/-- Field values supplied when creating a `Mouse`; `Option.none` means the
field was omitted. -/
structure MouseInput where
  name : Option String
  stimulus_set : Option String
  step_first_rotation : Option Int
  timeout : Option Int
  scheduler : Option String
  max_rewards_per_trial : Option Int
  protocol_name : Option String
  script_name : Option String
  default_board : Option String
  default_box : Option String
  deriving DecidableEq

/-- Modelled from the spec: the names of the required `Mouse` fields that are
missing from an input.  The validation machinery itself (Django
`full_clean`) is framework code outside this repository; which fields are
required (`null=False`, no default) is read off the declarations in
`runner/models.py` lines 21–35. -/
def Mouse.missingFields (inp : MouseInput) : List String :=
  (if inp.name.isNone then ["name"] else []) ++
  (if inp.stimulus_set.isNone then ["stimulus_set"] else []) ++
  (if inp.step_first_rotation.isNone then ["step_first_rotation"] else []) ++
  (if inp.scheduler.isNone then ["scheduler"] else []) ++
  (if inp.protocol_name.isNone then ["protocol_name"] else []) ++
  (if inp.script_name.isNone then ["script_name"] else [])

/-- Modelled from the spec: creating a `Mouse` at the storage boundary.  If
every required field is present the record is stored, omitted nullable
fields stay null and `max_rewards_per_trial` falls back to its declared
default `1`; otherwise creation fails with a validation error naming the
missing fields. -/
def Mouse.create (inp : MouseInput) : Except (List String) Mouse :=
  match inp.name, inp.stimulus_set, inp.step_first_rotation, inp.scheduler,
      inp.protocol_name, inp.script_name with
  | Option.some n, Option.some ss, Option.some r, Option.some sc,
      Option.some pn, Option.some sn =>
    Except.ok
      { name := n, stimulus_set := ss, step_first_rotation := r,
        timeout := inp.timeout, scheduler := sc,
        max_rewards_per_trial := inp.max_rewards_per_trial.getD 1,
        protocol_name := pn, script_name := sn,
        default_board := inp.default_board, default_box := inp.default_box }
  | _, _, _, _, _, _ => Except.error (Mouse.missingFields inp)

/-! ### Field-update helpers used to state the theorems -/

/-- Overwrite the left water-consumption and valve-mean columns. -/
def Session.setLeftWater (s : Session) (c m : Option ℚ) : Session :=
  { s with user_data_left_water_consumption := c, user_data_left_valve_mean := m }

/-- Overwrite the right water-consumption and valve-mean columns. -/
def Session.setRightWater (s : Session) (c m : Option ℚ) : Session :=
  { s with user_data_right_water_consumption := c, user_data_right_valve_mean := m }

/-- Overwrite all four water columns. -/
def Session.setWater (s : Session) (lc lm rc rm : Option ℚ) : Session :=
  { s with user_data_left_water_consumption := lc, user_data_left_valve_mean := lm,
           user_data_right_water_consumption := rc, user_data_right_valve_mean := rm }

/-- Overwrite the left performance column. -/
def Session.setLeftPerf (s : Session) (v : PyVal) : Session :=
  { s with user_data_left_perf := v }

/-- Overwrite the right performance column. -/
def Session.setRightPerf (s : Session) (v : PyVal) : Session :=
  { s with user_data_right_perf := v }

/-- Overwrite the name column. -/
def Session.setName (s : Session) (n : String) : Session :=
  { s with name := n }

/-- A concrete box, used in closed statements. -/
def box0 : Box :=
  { name := "B1", l_reward_duration := 120, r_reward_duration := Option.none,
    serial_port := "/dev/ttyACM0", video_device := Option.none,
    video_window_position_x := Option.none, video_window_position_y := Option.none,
    gui_window_position_x := Option.none, gui_window_position_y := Option.none,
    window_position_IR_plot_x := Option.none, window_position_IR_plot_y := Option.none,
    subprocess_window_ypos := Option.none, video_brightness := Option.none,
    video_gain := Option.none, video_exposure := Option.none }

/-- A concrete session with no user data yet, used in closed statements. -/
def session0 : Session :=
  { name := "", mouse := 1, logfile := "", board := Option.none, box := Option.none,
    serial_port := Option.none, autosketch_path := "", script_path := "",
    sandbox := "", python_param_scheduler_name := Option.none,
    python_param_stimulus_set := Option.none, irl_param_stimulus_arm := Option.none,
    date_time_start := Option.none, date_time_stop := Option.none,
    user_data_water_pipe_position_start := Option.none,
    user_data_water_pipe_position_stop := Option.none,
    user_data_left_water_consumption := Option.none,
    user_data_right_water_consumption := Option.none,
    user_data_left_valve_mean := Option.none,
    user_data_right_valve_mean := Option.none,
    user_data_left_perf := PyVal.none, user_data_right_perf := PyVal.none,
    user_data_bias_summary := Option.none, user_data_weight := Option.none }

/-!  ## Theorems about the claims  -/

/-- The valve summary as a function of the two columns it reads (same body
as `Session.left_valve_summary` / `Session.right_valve_summary`). -/
def valveSummaryOf (c m : Option ℚ) : String :=
  let res := ""
  let res := if truthy c then res ++ formatFixed 2 (c.getD 0) else res
  let res := if truthy m then
      res ++ " @" ++ formatFixed 1 (qscale 1000 (m.getD 0)) ++ " μL"
    else res
  res

/-- The left valve summary only reads the two left water columns. -/
theorem left_valve_summary_set (s : Session) (c m : Option ℚ) :
    Session.left_valve_summary (Session.setLeftWater s c m) = valveSummaryOf c m := rfl

/-- The right valve summary only reads the two right water columns. -/
theorem right_valve_summary_set (s : Session) (c m : Option ℚ) :
    Session.right_valve_summary (Session.setRightWater s c m) = valveSummaryOf c m := rfl

/-- The performance display as a function of the column it reads. -/
def displayPerfOf : PyVal → String
  | PyVal.num q => formatFixed 0 (qscale 100 q)
  | _ => "NA"

/-- The left performance display only reads the left performance column. -/
theorem display_left_perf_set (s : Session) (v : PyVal) :
    Session.display_left_perf (Session.setLeftPerf s v) = displayPerfOf v := rfl

/-- The right performance display only reads the right performance column. -/
theorem display_right_perf_set (s : Session) (v : PyVal) :
    Session.display_right_perf (Session.setRightPerf s v) = displayPerfOf v := rfl

/-- Claim C3: for every `Box` and every pair of values `(x, y)`, setting a
paired coordinate property (`video_window_position`, `gui_window_position`,
or `window_position_IR_plot`) to `(x, y)` and then reading the same property
returns exactly the 2-tuple `(x, y)`. -/
theorem set_get_roundtrip (b : Box) (x y : Option Int) :
    (Box.set_video_window_position b [x, y]).map Box.video_window_position
        = Option.some (x, y) ∧
    (Box.set_gui_window_position b [x, y]).map Box.gui_window_position
        = Option.some (x, y) ∧
    (Box.set_window_position_IR_plot b [x, y]).map Box.window_position_IR_plot
        = Option.some (x, y) :=
  ⟨rfl, rfl, rfl⟩

/-- Claim C9: for every `Box` whose two backing fields of a paired
coordinate property are both unset, reading that property returns the tuple
`(None, None)` rather than failing — the getters are total functions into
pairs, with no error branch. -/
theorem get_position_null (b : Box) :
    (b.video_window_position_x = Option.none → b.video_window_position_y = Option.none →
        Box.video_window_position b = (Option.none, Option.none)) ∧
    (b.gui_window_position_x = Option.none → b.gui_window_position_y = Option.none →
        Box.gui_window_position b = (Option.none, Option.none)) ∧
    (b.window_position_IR_plot_x = Option.none → b.window_position_IR_plot_y = Option.none →
        Box.window_position_IR_plot b = (Option.none, Option.none)) := by
  refine ⟨fun h1 h2 => ?_, fun h1 h2 => ?_, fun h1 h2 => ?_⟩ <;>
    simp [Box.video_window_position, Box.gui_window_position,
      Box.window_position_IR_plot, h1, h2]

/-- Witness for C9 at the concrete box `box0`, whose backing coordinate
fields are all unset. -/
theorem get_position_null_witness :
    Box.video_window_position box0 = (Option.none, Option.none) ∧
    Box.gui_window_position box0 = (Option.none, Option.none) ∧
    Box.window_position_IR_plot box0 = (Option.none, Option.none) :=
  ⟨(get_position_null box0).1 rfl rfl,
   (get_position_null box0).2.1 rfl rfl,
   (get_position_null box0).2.2 rfl rfl⟩

/-- Counterexample to claim C2 as stated: a sequence of length 3 (≠ 2) does
not make the setter fail — `obj[0]` and `obj[1]` both exist, so the
assignment succeeds and the extra element is ignored. -/
theorem set_position_arity_counterexample :
    ([Option.some 1, Option.some 2, Option.some 3] : List (Option Int)).length ≠ 2 ∧
    (Box.set_video_window_position box0
        [Option.some 1, Option.some 2, Option.some 3]).isSome = true :=
  ⟨by decide, rfl⟩

/-- Claim C2, amended: setting a paired coordinate property fails with an
index error precisely when the sequence has fewer than two elements; with
two or more elements it succeeds, reading only `obj[0]` and `obj[1]` and
ignoring any extra elements. -/
theorem set_position_arity (b : Box) (obj : List (Option Int)) :
    (Box.set_video_window_position b obj = Option.none ↔ obj.length < 2) ∧
    (Box.set_gui_window_position b obj = Option.none ↔ obj.length < 2) ∧
    (Box.set_window_position_IR_plot b obj = Option.none ↔ obj.length < 2) ∧
    (∀ x y rest, Box.set_video_window_position b (x :: y :: rest)
        = Box.set_video_window_position b [x, y]) ∧
    (∀ x y rest, Box.set_gui_window_position b (x :: y :: rest)
        = Box.set_gui_window_position b [x, y]) ∧
    (∀ x y rest, Box.set_window_position_IR_plot b (x :: y :: rest)
        = Box.set_window_position_IR_plot b [x, y]) := by
  refine ⟨?_, ?_, ?_,
      fun x y rest => by simp [Box.set_video_window_position],
      fun x y rest => by simp [Box.set_gui_window_position],
      fun x y rest => by simp [Box.set_window_position_IR_plot]⟩ <;>
    rcases obj with _ | ⟨x, _ | ⟨y, rest⟩⟩ <;>
      simp [Box.set_video_window_position, Box.set_gui_window_position,
        Box.set_window_position_IR_plot]

/-- Counterexample to claim C1 as stated: with no consumption recorded but a
valve mean of `0.03` present, the summary is `" @30.0 μL"`, not `''` — the
valve part is appended independently of the consumption part. -/
theorem valve_summary_counterexample :
    Session.left_valve_summary
        (Session.setLeftWater session0 Option.none (Option.some (mkRat 3 100)))
      = " @30.0 μL" ∧
    (" @30.0 μL" : String) ≠ "" :=
  ⟨by decide, by decide⟩

/-- Claim C1, amended: for every `Session`, the left (resp. right) water
summary concatenates two independently-guarded parts with no separator: the
consumption part `"%0.2f"`, present when a consumption is recorded, and the
valve part `" @{1000*mean:0.1f} μL"`, present when a valve mean is recorded.
So consumption=None, mean=None gives `""`; consumption=2.5, mean=None gives
`"2.50"`; consumption=2.5, mean=0.03 gives `"2.50 @30.0 μL"`; and — contrary
to the claim's opening sentence — consumption=None, mean=0.03 gives
`" @30.0 μL"` rather than `""`. -/
theorem valve_summary_formats (s : Session) :
    Session.left_valve_summary (Session.setLeftWater s Option.none Option.none) = "" ∧
    Session.left_valve_summary
        (Session.setLeftWater s (Option.some (mkRat 5 2)) Option.none) = "2.50" ∧
    Session.left_valve_summary
        (Session.setLeftWater s (Option.some (mkRat 5 2)) (Option.some (mkRat 3 100)))
      = "2.50 @30.0 μL" ∧
    Session.left_valve_summary
        (Session.setLeftWater s Option.none (Option.some (mkRat 3 100))) = " @30.0 μL" ∧
    Session.right_valve_summary (Session.setRightWater s Option.none Option.none) = "" ∧
    Session.right_valve_summary
        (Session.setRightWater s (Option.some (mkRat 5 2)) Option.none) = "2.50" ∧
    Session.right_valve_summary
        (Session.setRightWater s (Option.some (mkRat 5 2)) (Option.some (mkRat 3 100)))
      = "2.50 @30.0 μL" ∧
    Session.right_valve_summary
        (Session.setRightWater s Option.none (Option.some (mkRat 3 100))) = " @30.0 μL" :=
  ⟨rfl,
   (left_valve_summary_set s (Option.some (mkRat 5 2)) Option.none).trans (by decide),
   (left_valve_summary_set s (Option.some (mkRat 5 2)) (Option.some (mkRat 3 100))).trans
     (by decide),
   (left_valve_summary_set s Option.none (Option.some (mkRat 3 100))).trans (by decide),
   rfl,
   (right_valve_summary_set s (Option.some (mkRat 5 2)) Option.none).trans (by decide),
   (right_valve_summary_set s (Option.some (mkRat 5 2)) (Option.some (mkRat 3 100))).trans
     (by decide),
   (right_valve_summary_set s Option.none (Option.some (mkRat 3 100))).trans (by decide)⟩

/-- Claim C8: a stored left (resp. right) water consumption equal to `0.0`
is falsy, so the consumption part is omitted exactly as when no consumption
is recorded at all — for any valve-mean value the summary coincides with the
one of an unrecorded consumption, and a recorded zero with no valve mean
displays as the empty string. -/
theorem valve_summary_zero (s : Session) (m : Option ℚ) :
    Session.left_valve_summary (Session.setLeftWater s (Option.some 0) m)
        = Session.left_valve_summary (Session.setLeftWater s Option.none m) ∧
    Session.left_valve_summary (Session.setLeftWater s (Option.some 0) Option.none) = "" ∧
    Session.right_valve_summary (Session.setRightWater s (Option.some 0) m)
        = Session.right_valve_summary (Session.setRightWater s Option.none m) ∧
    Session.right_valve_summary (Session.setRightWater s (Option.some 0) Option.none) = "" :=
  ⟨rfl, rfl, rfl, rfl⟩

/-- Claim C4: the left (resp. right) performance display formats the stored
fraction times 100 with zero decimal places (`0.873` gives `"87"`), and for
an absent or non-numeric stored value it returns the literal `"NA"` — the
function is total, so no error propagates. -/
theorem display_perf_na (s : Session) :
    Session.display_left_perf (Session.setLeftPerf s (PyVal.num (mkRat 873 1000))) = "87" ∧
    Session.display_left_perf (Session.setLeftPerf s PyVal.none) = "NA" ∧
    (∀ t, Session.display_left_perf (Session.setLeftPerf s (PyVal.str t)) = "NA") ∧
    (∀ q, Session.display_left_perf (Session.setLeftPerf s (PyVal.num q))
        = formatFixed 0 (qscale 100 q)) ∧
    Session.display_right_perf (Session.setRightPerf s (PyVal.num (mkRat 873 1000))) = "87" ∧
    Session.display_right_perf (Session.setRightPerf s PyVal.none) = "NA" ∧
    (∀ t, Session.display_right_perf (Session.setRightPerf s (PyVal.str t)) = "NA") ∧
    (∀ q, Session.display_right_perf (Session.setRightPerf s (PyVal.num q))
        = formatFixed 0 (qscale 100 q)) :=
  ⟨(display_left_perf_set s (PyVal.num (mkRat 873 1000))).trans (by decide),
   rfl, fun t => rfl, fun q => rfl,
   (display_right_perf_set s (PyVal.num (mkRat 873 1000))).trans (by decide),
   rfl, fun t => rfl, fun q => rfl⟩

/-- Claim C6: the human-readable label of a `Session` is `"Unstarted"` when
the stored name is empty, and exactly the stored name otherwise; in
particular a session named `"2020-01-01_mouseX"` displays that literal
string. -/
theorem session_str_label (s : Session) :
    (s.name = "" → Session.str s = "Unstarted") ∧
    (s.name ≠ "" → Session.str s = s.name) ∧
    Session.str (Session.setName s "2020-01-01_mouseX") = "2020-01-01_mouseX" := by
  refine ⟨fun h => ?_, fun h => ?_, rfl⟩
  · simp [Session.str, h]
  · simp [Session.str, h]

/-- Witness for C6 at concrete sessions: `session0` has the empty name and
displays as `"Unstarted"`; after renaming it displays the stored name. -/
theorem session_str_label_witness :
    Session.str session0 = "Unstarted" ∧
    Session.str (Session.setName session0 "2020-01-01_mouseX") = "2020-01-01_mouseX" :=
  ⟨(session_str_label session0).1 rfl,
   (session_str_label (Session.setName session0 "2020-01-01_mouseX")).2.1 (by decide)⟩

/-- Claim C5: `Box.mean_water_consumed` is a stub that never yields a water
aggregate — its value is the `name` field (a string) of the first element of
the undefined `session_list` relation, and it is invariant under arbitrary
changes to every water-consumption and valve-mean column of every session,
so it computes no mean of water consumed. -/
theorem mean_water_consumed_stub :
    (∀ (sl : List Session) (hd : Session), sl[0]? = Option.some hd →
        Box.mean_water_consumed sl = Option.some hd.name) ∧
    (∀ (sl : List Session) (lc lm rc rm : Option ℚ),
        Box.mean_water_consumed (sl.map (fun s => Session.setWater s lc lm rc rm))
          = Box.mean_water_consumed sl) := by
  constructor
  · intro sl hd h
    simp [Box.mean_water_consumed, h]
  · intro sl lc lm rc rm
    cases sl with
    | nil => rfl
    | cons a tl => simp [Box.mean_water_consumed, Session.setWater]

/-- Witness for C5 at the one-element list `[session0]`. -/
theorem mean_water_consumed_stub_witness :
    Box.mean_water_consumed [session0] = Option.some session0.name ∧
    Box.mean_water_consumed ([session0].map (fun s =>
        Session.setWater s (Option.some 1) (Option.some 1) Option.none Option.none))
      = Box.mean_water_consumed [session0] :=
  ⟨mean_water_consumed_stub.1 [session0] session0 rfl,
   mean_water_consumed_stub.2 [session0] (Option.some 1) (Option.some 1)
     Option.none Option.none⟩

/-- Claim C7: creating a `Mouse` without the required `stimulus_set` field
fails with a validation error naming that field, while creating one with all
required fields present and the optional `timeout`, `default_board`,
`default_box` omitted succeeds with those fields null (and
`max_rewards_per_trial` at its declared default `1`). -/
theorem mouse_create_validation :
    (∀ inp : MouseInput, inp.stimulus_set = Option.none →
        "stimulus_set" ∈ Mouse.missingFields inp ∧
        Mouse.create inp = Except.error (Mouse.missingFields inp)) ∧
    (∀ (n ss : String) (r : Int) (sc pn sn : String),
        Mouse.create
          { name := Option.some n, stimulus_set := Option.some ss,
            step_first_rotation := Option.some r, timeout := Option.none,
            scheduler := Option.some sc, max_rewards_per_trial := Option.none,
            protocol_name := Option.some pn, script_name := Option.some sn,
            default_board := Option.none, default_box := Option.none }
          = Except.ok
            { name := n, stimulus_set := ss, step_first_rotation := r,
              timeout := Option.none, scheduler := sc, max_rewards_per_trial := 1,
              protocol_name := pn, script_name := sn,
              default_board := Option.none, default_box := Option.none }) := by
  constructor
  · rintro ⟨n, ss, r, t, sc, mr, pn, sn, db, dbx⟩ h
    dsimp only at h
    subst h
    constructor
    · simp [Mouse.missingFields]
    · cases n <;> cases r <;> cases sc <;> cases pn <;> cases sn <;> rfl
  · intro n ss r sc pn sn
    rfl

/-- Witness for C7: a concrete input omitting `stimulus_set` is rejected
with an error naming it, and a concrete fully-required input is stored with
null optional fields. -/
theorem mouse_create_validation_witness :
    ("stimulus_set" ∈ Mouse.missingFields
        { name := Option.some "M1", stimulus_set := Option.none,
          step_first_rotation := Option.some 0, timeout := Option.none,
          scheduler := Option.some "forced_alternation",
          max_rewards_per_trial := Option.none,
          protocol_name := Option.some "TwoChoice",
          script_name := Option.some "TwoChoice.py",
          default_board := Option.none, default_box := Option.none } ∧
      Mouse.create
        { name := Option.some "M1", stimulus_set := Option.none,
          step_first_rotation := Option.some 0, timeout := Option.none,
          scheduler := Option.some "forced_alternation",
          max_rewards_per_trial := Option.none,
          protocol_name := Option.some "TwoChoice",
          script_name := Option.some "TwoChoice.py",
          default_board := Option.none, default_box := Option.none }
        = Except.error (Mouse.missingFields
          { name := Option.some "M1", stimulus_set := Option.none,
            step_first_rotation := Option.some 0, timeout := Option.none,
            scheduler := Option.some "forced_alternation",
            max_rewards_per_trial := Option.none,
            protocol_name := Option.some "TwoChoice",
            script_name := Option.some "TwoChoice.py",
            default_board := Option.none, default_box := Option.none })) ∧
    Mouse.create
        { name := Option.some "M1", stimulus_set := Option.some "2shapes",
          step_first_rotation := Option.some 50, timeout := Option.none,
          scheduler := Option.some "forced_alternation",
          max_rewards_per_trial := Option.none,
          protocol_name := Option.some "TwoChoice",
          script_name := Option.some "TwoChoice.py",
          default_board := Option.none, default_box := Option.none }
      = Except.ok
        { name := "M1", stimulus_set := "2shapes", step_first_rotation := 50,
          timeout := Option.none, scheduler := "forced_alternation",
          max_rewards_per_trial := 1, protocol_name := "TwoChoice",
          script_name := "TwoChoice.py",
          default_board := Option.none, default_box := Option.none } :=
  ⟨mouse_create_validation.1
      { name := Option.some "M1", stimulus_set := Option.none,
        step_first_rotation := Option.some 0, timeout := Option.none,
        scheduler := Option.some "forced_alternation",
        max_rewards_per_trial := Option.none,
        protocol_name := Option.some "TwoChoice",
        script_name := Option.some "TwoChoice.py",
        default_board := Option.none, default_box := Option.none } rfl,
   mouse_create_validation.2 "M1" "2shapes" 50 "forced_alternation"
     "TwoChoice" "TwoChoice.py"⟩

/-- Claim C10: a successful write to one paired coordinate property mutates
only that property's own two backing columns; every other field of the box,
including the backing columns of the other two paired properties, is
unchanged. -/
theorem set_position_frame (b : Box) (obj : List (Option Int)) (c : Box) :
    (Box.set_video_window_position b obj = Option.some c →
        c.name = b.name ∧ c.l_reward_duration = b.l_reward_duration ∧
        c.r_reward_duration = b.r_reward_duration ∧ c.serial_port = b.serial_port ∧
        c.video_device = b.video_device ∧
        c.gui_window_position_x = b.gui_window_position_x ∧
        c.gui_window_position_y = b.gui_window_position_y ∧
        c.window_position_IR_plot_x = b.window_position_IR_plot_x ∧
        c.window_position_IR_plot_y = b.window_position_IR_plot_y ∧
        c.subprocess_window_ypos = b.subprocess_window_ypos ∧
        c.video_brightness = b.video_brightness ∧
        c.video_gain = b.video_gain ∧ c.video_exposure = b.video_exposure) ∧
    (Box.set_gui_window_position b obj = Option.some c →
        c.name = b.name ∧ c.l_reward_duration = b.l_reward_duration ∧
        c.r_reward_duration = b.r_reward_duration ∧ c.serial_port = b.serial_port ∧
        c.video_device = b.video_device ∧
        c.video_window_position_x = b.video_window_position_x ∧
        c.video_window_position_y = b.video_window_position_y ∧
        c.window_position_IR_plot_x = b.window_position_IR_plot_x ∧
        c.window_position_IR_plot_y = b.window_position_IR_plot_y ∧
        c.subprocess_window_ypos = b.subprocess_window_ypos ∧
        c.video_brightness = b.video_brightness ∧
        c.video_gain = b.video_gain ∧ c.video_exposure = b.video_exposure) ∧
    (Box.set_window_position_IR_plot b obj = Option.some c →
        c.name = b.name ∧ c.l_reward_duration = b.l_reward_duration ∧
        c.r_reward_duration = b.r_reward_duration ∧ c.serial_port = b.serial_port ∧
        c.video_device = b.video_device ∧
        c.video_window_position_x = b.video_window_position_x ∧
        c.video_window_position_y = b.video_window_position_y ∧
        c.gui_window_position_x = b.gui_window_position_x ∧
        c.gui_window_position_y = b.gui_window_position_y ∧
        c.subprocess_window_ypos = b.subprocess_window_ypos ∧
        c.video_brightness = b.video_brightness ∧
        c.video_gain = b.video_gain ∧ c.video_exposure = b.video_exposure) := by
  refine ⟨fun h => ?_, fun h => ?_, fun h => ?_⟩ <;>
    · rcases obj with _ | ⟨x, _ | ⟨y, rest⟩⟩ <;>
        simp [Box.set_video_window_position, Box.set_gui_window_position,
          Box.set_window_position_IR_plot] at h
      subst h
      exact ⟨rfl, rfl, rfl, rfl, rfl, rfl, rfl, rfl, rfl, rfl, rfl, rfl, rfl⟩

/-- `box0` with its video window position set to `(5, 6)`. -/
def box0v : Box :=
  { box0 with video_window_position_x := Option.some 5,
              video_window_position_y := Option.some 6 }

/-- `box0` with its GUI window position set to `(5, 6)`. -/
def box0g : Box :=
  { box0 with gui_window_position_x := Option.some 5,
              gui_window_position_y := Option.some 6 }

/-- `box0` with its IR-plot window position set to `(5, 6)`. -/
def box0i : Box :=
  { box0 with window_position_IR_plot_x := Option.some 5,
              window_position_IR_plot_y := Option.some 6 }

/-- Witness for C10 at the concrete box `box0` and input `[5, 6]`, for each
of the three setters. -/
theorem set_position_frame_witness :
    (box0v.name = box0.name ∧ box0v.l_reward_duration = box0.l_reward_duration ∧
      box0v.r_reward_duration = box0.r_reward_duration ∧
      box0v.serial_port = box0.serial_port ∧ box0v.video_device = box0.video_device ∧
      box0v.gui_window_position_x = box0.gui_window_position_x ∧
      box0v.gui_window_position_y = box0.gui_window_position_y ∧
      box0v.window_position_IR_plot_x = box0.window_position_IR_plot_x ∧
      box0v.window_position_IR_plot_y = box0.window_position_IR_plot_y ∧
      box0v.subprocess_window_ypos = box0.subprocess_window_ypos ∧
      box0v.video_brightness = box0.video_brightness ∧
      box0v.video_gain = box0.video_gain ∧ box0v.video_exposure = box0.video_exposure) ∧
    (box0g.name = box0.name ∧ box0g.l_reward_duration = box0.l_reward_duration ∧
      box0g.r_reward_duration = box0.r_reward_duration ∧
      box0g.serial_port = box0.serial_port ∧ box0g.video_device = box0.video_device ∧
      box0g.video_window_position_x = box0.video_window_position_x ∧
      box0g.video_window_position_y = box0.video_window_position_y ∧
      box0g.window_position_IR_plot_x = box0.window_position_IR_plot_x ∧
      box0g.window_position_IR_plot_y = box0.window_position_IR_plot_y ∧
      box0g.subprocess_window_ypos = box0.subprocess_window_ypos ∧
      box0g.video_brightness = box0.video_brightness ∧
      box0g.video_gain = box0.video_gain ∧ box0g.video_exposure = box0.video_exposure) ∧
    (box0i.name = box0.name ∧ box0i.l_reward_duration = box0.l_reward_duration ∧
      box0i.r_reward_duration = box0.r_reward_duration ∧
      box0i.serial_port = box0.serial_port ∧ box0i.video_device = box0.video_device ∧
      box0i.video_window_position_x = box0.video_window_position_x ∧
      box0i.video_window_position_y = box0.video_window_position_y ∧
      box0i.gui_window_position_x = box0.gui_window_position_x ∧
      box0i.gui_window_position_y = box0.gui_window_position_y ∧
      box0i.subprocess_window_ypos = box0.subprocess_window_ypos ∧
      box0i.video_brightness = box0.video_brightness ∧
      box0i.video_gain = box0.video_gain ∧ box0i.video_exposure = box0.video_exposure) :=
  ⟨(set_position_frame box0 [Option.some 5, Option.some 6] box0v).1 rfl,
   (set_position_frame box0 [Option.some 5, Option.some 6] box0g).2.1 rfl,
   (set_position_frame box0 [Option.some 5, Option.some 6] box0i).2.2 rfl⟩

end Runner
